import Mathlib

/-!
Verification of the Musify frontend job-monitor state machine
(`frontend/src/app/page.tsx` and `frontend/src/lib/api.ts`).

The client is a single-session state machine with states
idle / loading / downloading / completed / error.  The embedding below
translates the React component's state variables into a `Session` record,
its event handlers (`handleSubmit`, `pollStatus`, `handleReset`,
`handleDownload`) and the api helpers (`startDownload` error handling,
`getJobStatus`, `getDownloadUrl`) into pure Lean functions, and the
asynchronous environment (create-job responses, poll ticks, poll
responses) into an explicit event alphabet with a `step` function.
-/

namespace Musify

/-! ## URL validation (page.tsx line 19-21)

The source tests the input against the regular expression
`/^https:\/\/open\.spotify\.com\/(playlist|album|track)\/[a-zA-Z0-9]+/`.
The pattern is anchored at the start only, so `RegExp.test` succeeds
exactly when the string starts with the scheme, domain, one of the three
segments, a slash, and at least one ASCII alphanumeric character;
arbitrary characters may follow. -/

/-- ASCII alphanumeric, the character class `[a-zA-Z0-9]` of the regex. -/
def isAsciiAlnum (c : Char) : Bool :=
  (decide ('a' ≤ c) && decide (c ≤ 'z')) ||
  (decide ('A' ≤ c) && decide (c ≤ 'Z')) ||
  (decide ('0' ≤ c) && decide (c ≤ '9'))

/-- Holds when the first character list is a prefix of the second. -/
def listStartsWith : List Char → List Char → Bool
  | [], _ => true
  | _ :: _, [] => false
  | p :: ps, c :: cs => p == c && listStartsWith ps cs

/-- The three resource kinds accepted by the regex alternation. -/
def spotifySegments : List String := ["playlist", "album", "track"]

/-- The fixed part of the pattern up to and including the slash after the
segment: `https://open.spotify.com/<seg>/`. -/
def segmentHead (seg : String) : List Char :=
  ("https://open.spotify.com/" ++ seg ++ "/").data

/-- Semantics of `RegExp.test` for the start-anchored pattern of the source:
the input starts with `https://open.spotify.com/(playlist|album|track)/`
followed by at least one ASCII alphanumeric character; the `[a-zA-Z0-9]+`
group being unanchored at the end, any suffix may follow. -/
def regexAccepts (s : List Char) : Bool :=
  spotifySegments.any fun seg =>
    listStartsWith (segmentHead seg) s &&
      (match s.drop (segmentHead seg).length with
       | c :: _ => isAsciiAlnum c
       | [] => false)

/-- The `isValidSpotifyUrl` check of page.tsx (line 19-21). -/
def isValidSpotifyUrl (s : String) : Bool :=
  regexAccepts s.data

/-- Modelled from the spec's words, for refinement comparison only (NOT from
the source): "a scheme-qualified domain followed by one of those three path
segments and a non-empty alphanumeric identifier" and nothing else — the
whole input is the head followed by a non-empty all-alphanumeric
identifier. -/
def specUrlShape (s : String) : Bool :=
  spotifySegments.any fun seg =>
    listStartsWith (segmentHead seg) s.data &&
      (let rest := s.data.drop (segmentHead seg).length
       !rest.isEmpty && rest.all isAsciiAlnum)

/-! ## Data model (lib/api.ts) -/

/-- The `status` field of a `JobStatus` response
(`'pending' | 'downloading' | 'completed' | 'error'`). -/
inductive ServerStatus where
  | pending
  | downloading
  | completed
  | error
deriving DecidableEq

/-- One entry of the `progress` array of a `JobStatus` response. -/
structure ProgressEntry where
  song : String
  status : String
  message : String
deriving DecidableEq

/-- The `JobStatus` interface of lib/api.ts.  `download_url` and `error`
are nullable in the source (`string | null`), hence `Option String`. -/
structure JobStatus where
  job_id : String
  status : ServerStatus
  progress : List ProgressEntry
  song_count : Nat
  download_url : Option String
  error : Option String
deriving DecidableEq

/-! ## Client session state (the useState variables of Home) -/

/-- The `AppState` type of page.tsx (line 10). -/
inductive AppState where
  | idle
  | loading
  | downloading
  | completed
  | error
deriving DecidableEq

/-- The client-local session: the five `useState` variables of `Home`,
plus instrumentation for the asynchronous environment: how many
create-job and get-status calls are currently in flight (their
continuations may still fire), and a running count of get-status
requests issued. -/
structure Session where
  url : String
  state : AppState
  jobId : Option String
  status : Option JobStatus
  error : Option String
  inflightCreates : Nat
  inflightPolls : Nat
  pollRequests : Nat
deriving DecidableEq

/-- The initial session: all five state variables at their `useState`
initial values. -/
def initialSession : Session :=
  { url := ""
    state := .idle
    jobId := none
    status := none
    error := none
    inflightCreates := 0
    inflightPolls := 0
    pollRequests := 0 }

/-- The validation error message set by `handleSubmit` (line 26). -/
def validationErrorMessage : String :=
  "Please enter a valid Spotify playlist, album, or track URL"

/-- JavaScript `x || fallback` on a nullable string: the fallback is used
when the value is null/undefined or the empty string (both falsy). -/
def fallbackOr (opt : Option String) (fallback : String) : String :=
  match opt with
  | some st => if st = "" then fallback else st
  | none => fallback

/-- The message of the `Error` thrown by `startDownload` on a non-2xx
response (lib/api.ts line: `throw new Error(error.detail || 'Failed to
start download')`); `handleSubmit`'s catch stores exactly this message. -/
def createFailureMessage (detail : Option String) : String :=
  fallbackOr detail "Failed to start download"

/-- The body of `pollStatus` after `getJobStatus` resolves (page.tsx
lines 47-55): cache the snapshot, then move to `completed` on a completed
status, or to `error` with `jobStatus.error || 'Download failed'` on an
error status; otherwise leave the machine state alone.  The source applies
this unconditionally to the current session — there is no check that the
session still belongs to the job the response is for. -/
def applyPollOk (js : JobStatus) (s : Session) : Session :=
  if js.status = .completed then
    { s with status := some js, state := .completed }
  else if js.status = .error then
    { s with status := some js
             error := some (fallbackOr js.error "Download failed")
             state := .error }
  else
    { s with status := some js }

/-! ## Events and the step function

The submit form (and with it `handleSubmit` and the URL input) is rendered
only in states idle / loading / error (page.tsx line 101); in
`downloading` and `completed` those events cannot fire.  The polling
interval exists exactly while `state === 'downloading' && jobId` (the
effect at lines 62-67); each tick calls `pollStatus`, which issues one
`getJobStatus` request.  Create-job and poll responses are delivered as
events whose guard is that such a call is actually in flight; their
handlers run against whatever the session is at arrival time, as the
source's promise continuations do. -/

inductive Event where
  /-- The URL input's onChange. -/
  | typeUrl (u : String)
  /-- Form submission (`handleSubmit`). -/
  | submit
  /-- The `startDownload` promise resolves with `{ job_id }`. -/
  | createOk (j : String)
  /-- The `startDownload` promise rejects; `detail` is the `detail` field
  of the error body when the response carried one. -/
  | createErr (detail : Option String)
  /-- One firing of the 1-second interval while it exists. -/
  | pollTick
  /-- A `getJobStatus` promise resolves with a snapshot. -/
  | pollOk (js : JobStatus)
  /-- A `getJobStatus` promise rejects (non-2xx or network failure). -/
  | pollFail
  /-- Reset via `handleReset`. -/
  | reset
  /-- Download via `handleDownload` (opens the download URL; no state change). -/
  | download
deriving DecidableEq

/-- One transition of the client, from page.tsx's handlers. -/
def step (s : Session) (e : Event) : Session :=
  match e with
  | .typeUrl u =>
      if s.state = .downloading ∨ s.state = .completed then s
      else { s with url := u }
  | .submit =>
      if s.state = .downloading ∨ s.state = .completed then s
      else if isValidSpotifyUrl s.url then
        { s with error := none
                 state := .loading
                 inflightCreates := s.inflightCreates + 1 }
      else
        { s with error := some validationErrorMessage }
  | .createOk j =>
      if s.inflightCreates = 0 then s
      else
        { s with inflightCreates := s.inflightCreates - 1
                 jobId := some j
                 state := .downloading }
  | .createErr detail =>
      if s.inflightCreates = 0 then s
      else
        { s with inflightCreates := s.inflightCreates - 1
                 error := some (createFailureMessage detail)
                 state := .error }
  | .pollTick =>
      if s.state = .downloading ∧ s.jobId ≠ none then
        { s with inflightPolls := s.inflightPolls + 1
                 pollRequests := s.pollRequests + 1 }
      else s
  | .pollOk js =>
      if s.inflightPolls = 0 then s
      else applyPollOk js { s with inflightPolls := s.inflightPolls - 1 }
  | .pollFail =>
      if s.inflightPolls = 0 then s
      else
        { s with inflightPolls := s.inflightPolls - 1
                 error := some "Failed to check status"
                 state := .error }
  | .reset =>
      { s with url := ""
               state := .idle
               jobId := none
               status := none
               error := none }
  | .download => s

/-- Run a list of events from a given session. -/
def runFrom (s : Session) (evs : List Event) : Session :=
  List.foldl step s evs

/-- Run a list of events from the initial session. -/
def run (evs : List Event) : Session :=
  runFrom initialSession evs

/-! ## Progress display (page.tsx line 150) -/

/-- The value handed to the Progress bar:
`status ? (status.progress.length / Math.max(status.song_count, 1)) * 100 : 0`.
Note the source applies no `min` clamp. -/
def progressValue (st : Option JobStatus) : ℚ :=
  match st with
  | some js => ((js.progress.length : ℚ) / ((max js.song_count 1 : Nat) : ℚ)) * 100
  | none => 0

/-- The displayed completion ratio: the bar value rescaled from percent. -/
def progressFraction (st : Option JobStatus) : ℚ :=
  progressValue st / 100

/-! ## Download link (lib/api.ts `getDownloadUrl`, page.tsx `handleDownload`) -/

/-- Default base address used when the environment does not configure one. -/
def defaultApiUrl : String := "http://localhost:8000"

/-- The `getDownloadUrl` helper of lib/api.ts: pure string concatenation over the
configured base address. -/
def getDownloadUrl (apiUrl jobId : String) : String :=
  apiUrl ++ "/api/download/" ++ jobId ++ "/zip"

/-- The `handleDownload` handler (page.tsx lines 69-73): when a job identifier is
present the client opens `getDownloadUrl jobId`; otherwise nothing
happens.  Pure — no request is made to construct the link. -/
def downloadAction (apiUrl : String) (s : Session) : Option String :=
  match s.jobId with
  | some j => some (getDownloadUrl apiUrl j)
  | none => none

/-! ## Concrete data used by counterexamples and witnesses -/

/-- A well-formed playlist URL, from the spec's end-to-end scenario. -/
def goodUrl : String := "https://open.spotify.com/playlist/abc123"

/-- A string the source's regex accepts although its identifier part is
followed by a non-alphanumeric suffix. -/
def trailingJunkUrl : String := "https://open.spotify.com/track/a!"

/-- Snapshot with more progress entries (3) than `song_count` (2). -/
def jsOver : JobStatus :=
  { job_id := "J1", status := .downloading
    progress := [⟨"a", "completed", ""⟩, ⟨"b", "completed", ""⟩, ⟨"c", "completed", ""⟩]
    song_count := 2, download_url := none, error := none }

/-- Snapshot with `song_count = 10` and 4 progress entries. -/
def js10 : JobStatus :=
  { job_id := "J1", status := .downloading
    progress := [⟨"a", "completed", ""⟩, ⟨"b", "completed", ""⟩,
                 ⟨"c", "completed", ""⟩, ⟨"d", "downloading", ""⟩]
    song_count := 10, download_url := none, error := none }

/-- Snapshot with `song_count = 0` and no progress entries. -/
def js00 : JobStatus :=
  { job_id := "J1", status := .pending, progress := []
    song_count := 0, download_url := none, error := none }

/-- A completed-status snapshot. -/
def jsDone : JobStatus :=
  { job_id := "J1", status := .completed, progress := []
    song_count := 2, download_url := none, error := none }

/-- An error-status snapshot whose `error` field is the empty string. -/
def jsErrEmpty : JobStatus :=
  { job_id := "J1", status := .error, progress := []
    song_count := 2, download_url := none, error := some "" }

/-- Submit a valid URL and let the creation succeed: reaches `downloading`
with job identifier `J1`. -/
def evsToDownloading : List Event :=
  [.typeUrl goodUrl, .submit, .createOk "J1"]

/-- Reach `downloading`, let one poll go in flight, then reset: the
session is back to its initial values while the poll response is still
outstanding. -/
def evsResetWithPollInflight : List Event :=
  [.typeUrl goodUrl, .submit, .createOk "J1", .pollTick, .reset]

/-- Reach `downloading`, have a poll fail (state `error`), then resubmit:
the machine is in `loading` while the old job identifier is still
stored. -/
def evsStaleJobIdInLoading : List Event :=
  [.typeUrl goodUrl, .submit, .createOk "J1", .pollTick, .pollFail, .submit]

/-! ## C1 — progress ratio -/

/-- C1 (counterexample): the claim says the displayed completion ratio is
`min(1, n / max(c,1))` for every snapshot; on the snapshot with 3 progress
entries and `song_count = 2` the code (page.tsx line 150, which applies no
clamp) displays 3/2, not `min 1 (3/2) = 1`. -/
theorem c1_counterexample :
    progressFraction (some jsOver) = 3 / 2 ∧
    progressFraction (some jsOver) ≠
      min 1 ((jsOver.progress.length : ℚ) / ((max jsOver.song_count 1 : Nat) : ℚ)) := by
  constructor
  · norm_num [progressFraction, progressValue, jsOver]
  · norm_num [progressFraction, progressValue, jsOver]

/-- C1 (amended): the displayed completion ratio equals
`n / max(c, 1)` with no clamping; whenever `n ≤ max(c, 1)` — in particular
in the spec's two examples — this coincides with `min(1, n / max(c, 1))`,
and with no cached snapshot the displayed value is 0 (no division
error). -/
theorem c1_amended (js : JobStatus) :
    progressFraction (some js) =
      (js.progress.length : ℚ) / ((max js.song_count 1 : Nat) : ℚ) ∧
    ((js.progress.length : ℚ) ≤ ((max js.song_count 1 : Nat) : ℚ) →
      progressFraction (some js) =
        min 1 ((js.progress.length : ℚ) / ((max js.song_count 1 : Nat) : ℚ))) ∧
    progressFraction none = 0 := by
  have hpos : (0 : ℚ) < ((max js.song_count 1 : Nat) : ℚ) := by
    have h1 : 1 ≤ max js.song_count 1 := le_max_right _ _
    exact_mod_cast Nat.lt_of_lt_of_le Nat.zero_lt_one h1
  refine ⟨?_, ?_, ?_⟩
  · unfold progressFraction progressValue
    field_simp
    ring
  · intro h
    have hle : (js.progress.length : ℚ) / ((max js.song_count 1 : Nat) : ℚ) ≤ 1 :=
      (div_le_one hpos).mpr h
    rw [min_eq_right hle]
    unfold progressFraction progressValue
    field_simp
    ring
  · norm_num [progressFraction, progressValue]

/-- C1 (witness): on the spec's two examples the amended statement yields
ratio 2/5 (= 0.4) for `song_count = 10` with 4 entries, and ratio 0 for
`song_count = 0` with no entries. -/
theorem c1_amended_witness :
    progressFraction (some js10) =
      min 1 ((js10.progress.length : ℚ) / ((max js10.song_count 1 : Nat) : ℚ)) ∧
    progressFraction (some js10) = 2 / 5 ∧
    progressFraction (some js00) = 0 := by
  refine ⟨(c1_amended js10).2.1 (by norm_num [js10]), ?_, ?_⟩
  · norm_num [progressFraction, progressValue, js10]
  · have h := (c1_amended js00).1
    simpa [js00] using h

/-! ## C2 — URL validation -/

/-- `listStartsWith` is list-prefix. -/
theorem listStartsWith_iff (p s : List Char) :
    listStartsWith p s = true ↔ ∃ t, s = p ++ t := by
  induction p generalizing s with
  | nil => simp [listStartsWith]
  | cons a ps ih =>
    cases s with
    | nil => simp [listStartsWith]
    | cons c cs =>
      simp [listStartsWith, ih, List.cons_append]
      aesop

/-- The regex of `isValidSpotifyUrl` accepts exactly the strings that
begin with `https://open.spotify.com/<seg>/<alnum>` for one of the three
segments; the suffix after that first identifier character is
unconstrained. -/
theorem regexAccepts_iff (l : List Char) :
    regexAccepts l = true ↔
      ∃ seg ∈ spotifySegments, ∃ c rest,
        l = segmentHead seg ++ c :: rest ∧ isAsciiAlnum c = true := by
  unfold regexAccepts
  rw [List.any_eq_true]
  constructor
  · rintro ⟨seg, hseg, hmatch⟩
    rw [Bool.and_eq_true] at hmatch
    obtain ⟨hpre, hrest⟩ := hmatch
    obtain ⟨t, ht⟩ := (listStartsWith_iff _ _).mp hpre
    subst ht
    rw [List.drop_left] at hrest
    cases t with
    | nil => simp at hrest
    | cons c rest => exact ⟨seg, hseg, c, rest, rfl, hrest⟩
  · rintro ⟨seg, hseg, c, rest, hl, hc⟩
    refine ⟨seg, hseg, ?_⟩
    rw [Bool.and_eq_true]
    subst hl
    refine ⟨(listStartsWith_iff _ _).mpr ⟨c :: rest, rfl⟩, ?_⟩
    rw [List.drop_left]
    exact hc

/-- C2 (counterexample): the claim requires that only strings consisting
exactly of scheme + domain + segment + alphanumeric identifier are
accepted.  The regex (page.tsx line 20) has no end anchor, so
`https://open.spotify.com/track/a!` — whose identifier is followed by a
`!` — is accepted, and submitting it proceeds to `loading` and issues a
create-job call. -/
theorem c2_counterexample :
    isValidSpotifyUrl trailingJunkUrl = true ∧
    specUrlShape trailingJunkUrl = false ∧
    (run [.typeUrl trailingJunkUrl, .submit]).state = .loading ∧
    (run [.typeUrl trailingJunkUrl, .submit]).inflightCreates = 1 :=
  ⟨by decide, by decide, by decide, by decide⟩

/-- C2 (amended): with the submit form available (state not
`downloading`/`completed`), submit proceeds to create-job exactly when
the input BEGINS WITH a scheme-qualified open.spotify.com reference of
kind playlist/album/track followed by at least one alphanumeric
identifier character (arbitrary trailing characters are allowed — the
regex is not end-anchored); every other string is rejected locally: the
only change is the validation error message, so no network call is made
and the machine state is unchanged (hence never moved to `downloading`
or `completed` by the rejection). -/
theorem c2_amended (s : Session)
    (hd : s.state ≠ .downloading) (hc : s.state ≠ .completed) :
    (isValidSpotifyUrl s.url = true ↔
      ∃ seg ∈ spotifySegments, ∃ ch rest,
        s.url.data = segmentHead seg ++ ch :: rest ∧ isAsciiAlnum ch = true) ∧
    (isValidSpotifyUrl s.url = false →
      step s .submit = { s with error := some validationErrorMessage }) ∧
    (isValidSpotifyUrl s.url = true →
      step s .submit = { s with error := none
                                state := .loading
                                inflightCreates := s.inflightCreates + 1 }) := by
  refine ⟨regexAccepts_iff s.url.data, ?_, ?_⟩
  · intro hv
    simp [step, hd, hc, hv]
  · intro hv
    simp [step, hd, hc, hv]

/-- C2 (witness): the initial session with the malformed input `"spotify"`
typed in is rejected: only the error message changes; and with the
spec's example playlist URL typed in, submit proceeds to `loading` with a
create-job call in flight. -/
theorem c2_amended_witness :
    step { initialSession with url := "spotify" } .submit =
      { initialSession with url := "spotify"
                            error := some validationErrorMessage } ∧
    step { initialSession with url := goodUrl } .submit =
      { initialSession with url := goodUrl
                            error := none
                            state := .loading
                            inflightCreates := 1 } :=
  ⟨(c2_amended { initialSession with url := "spotify" }
      (by decide) (by decide)).2.1 (by decide),
   (c2_amended { initialSession with url := goodUrl }
      (by decide) (by decide)).2.2 (by decide)⟩

/-! ## C8 — reset -/

/-- C8: `handleReset` (page.tsx lines 75-81), invoked from any session
whatsoever, returns the machine state to `idle` and clears the submitted
URL, the job identifier, the cached snapshot, and the error message. -/
theorem c8_reset_clears_all (s : Session) :
    (step s .reset).state = .idle ∧
    (step s .reset).url = "" ∧
    (step s .reset).jobId = none ∧
    (step s .reset).status = none ∧
    (step s .reset).error = none := by
  simp [step]

/-! ## C9 — download reference -/

/-- C9: `getDownloadUrl` (lib/api.ts) is pure concatenation of the
configured base address with `/api/download/<jobId>/zip`, and
`handleDownload` opens exactly that reference for the session's job
identifier; with the default base address, job id `J1` yields
`http://localhost:8000/api/download/J1/zip`. -/
theorem c9_download_reference (apiUrl j : String) (s : Session)
    (h : s.jobId = some j) :
    getDownloadUrl apiUrl j = apiUrl ++ "/api/download/" ++ j ++ "/zip" ∧
    downloadAction apiUrl s = some (getDownloadUrl apiUrl j) ∧
    getDownloadUrl defaultApiUrl "J1" =
      "http://localhost:8000/api/download/J1/zip" := by
  refine ⟨rfl, ?_, by decide⟩
  simp [downloadAction, h]

/-- C9 (witness): after a successful submission for job `J1`, the
download action opens `http://localhost:8000/api/download/J1/zip` (with
the default base address). -/
theorem c9_download_reference_witness :
    downloadAction defaultApiUrl (run evsToDownloading) =
      some (getDownloadUrl defaultApiUrl "J1") :=
  (c9_download_reference defaultApiUrl "J1" (run evsToDownloading)
    (by decide)).2.1

/-! ## C10 — frame of a rejected submit -/

/-- C10: when submit is invoked (the form being rendered, i.e. state not
`downloading`/`completed`) on an input failing URL validation, the only
session field modified is the error message; URL, machine state, job
identifier, cached snapshot, and the in-flight request instrumentation
are all exactly as before. -/
theorem c10_rejected_submit_frame (s : Session)
    (hd : s.state ≠ .downloading) (hc : s.state ≠ .completed)
    (hv : isValidSpotifyUrl s.url = false) :
    step s .submit = { s with error := some validationErrorMessage } := by
  simp [step, hd, hc, hv]

/-- C10 (witness): submitting the malformed input `"https://example.com"`
from the initial session changes nothing but the error message. -/
theorem c10_rejected_submit_frame_witness :
    step { initialSession with url := "https://example.com" } .submit =
      { initialSession with url := "https://example.com"
                            error := some validationErrorMessage } :=
  c10_rejected_submit_frame { initialSession with url := "https://example.com" }
    (by decide) (by decide) (by decide)

/-! ## C3 — job identifier invariant -/

/-- The invariant that actually holds along every trace: in `idle` the job
identifier is null, and in `downloading` it is non-null. -/
def SessionInv (s : Session) : Prop :=
  (s.state = .idle → s.jobId = none) ∧
  (s.state = .downloading → s.jobId ≠ none)

theorem sessionInv_step (s : Session) (e : Event) (h : SessionInv s) :
    SessionInv (step s e) := by
  obtain ⟨h1, h2⟩ := h
  cases e <;>
    simp only [step, applyPollOk, SessionInv] <;>
    (try split_ifs) <;>
    constructor <;>
    intro hst <;>
    simp_all

theorem sessionInv_runFrom (s : Session) (evs : List Event)
    (h : SessionInv s) : SessionInv (runFrom s evs) := by
  induction evs generalizing s with
  | nil => exact h
  | cons e rest ih => exact ih (step s e) (sessionInv_step s e h)

theorem sessionInv_run (evs : List Event) : SessionInv (run evs) :=
  sessionInv_runFrom initialSession evs
    ⟨fun _ => rfl, fun h => by exact absurd h (by decide)⟩

/-- C3 (counterexample): the claimed invariant "the job identifier is null
whenever the state is idle or loading" fails on a reachable trace: submit
a valid URL, creation succeeds with id `J1`, a poll call fails (state
`error`), and the user resubmits — `handleSubmit` never clears `jobId`,
so the machine is in `loading` while still holding `J1`. -/
theorem c3_counterexample :
    (run evsStaleJobIdInLoading).state = .loading ∧
    (run evsStaleJobIdInLoading).jobId = some "J1" :=
  ⟨by decide, by decide⟩

/-- C3 (amended): in every reachable session, a non-null job identifier
implies the state is not `idle` (it can occur in `loading`, `downloading`,
`completed`, or `error`), and in `downloading` the identifier is always
non-null.  The identifier is null in `idle` but, contrary to the claim,
may persist through `loading` on a resubmission after a failure. -/
theorem c3_amended (evs : List Event) :
    ((run evs).jobId ≠ none → (run evs).state ≠ .idle) ∧
    ((run evs).state = .downloading → (run evs).jobId ≠ none) := by
  obtain ⟨h1, h2⟩ := sessionInv_run evs
  exact ⟨fun hj hst => hj (h1 hst), h2⟩

/-- C3 (witness): after a successful submission the machine is in
`downloading`, so the amended invariant yields a non-null identifier and
a non-idle state. -/
theorem c3_amended_witness :
    (run evsToDownloading).jobId ≠ none ∧
    (run evsToDownloading).state ≠ .idle :=
  ⟨(c3_amended evsToDownloading).2 (by decide),
   (c3_amended evsToDownloading).1 ((c3_amended evsToDownloading).2 (by decide))⟩

/-! ## C4 — stale poll responses after reset -/

/-- C4 (counterexample): reach `downloading`, let one poll go in flight,
reset (session back to its initial values), then deliver the late
response: the source's `pollStatus` continuation applies it with no
staleness guard, so the reset session is changed — its snapshot is
replaced and a completed-status response moves it to `completed`. -/
theorem c4_counterexample :
    (run evsResetWithPollInflight).state = .idle ∧
    (run evsResetWithPollInflight).status = none ∧
    step (run evsResetWithPollInflight) (.pollOk jsDone) ≠
      run evsResetWithPollInflight ∧
    (step (run evsResetWithPollInflight) (.pollOk jsDone)).state = .completed ∧
    (step (run evsResetWithPollInflight) (.pollOk jsDone)).status = some jsDone :=
  ⟨by decide, by decide, by decide, by decide, by decide⟩

/-- C4 (amended): a late poll response delivered to a session that has
been reset (state `idle`, a poll still in flight) is NOT ignored: the
cached snapshot is always replaced by the response, a completed-status
response moves the session to `completed`, an error-status response moves
it to `error` with the response's message (or the generic fallback), and
only a pending/downloading-status response leaves the machine state
itself at `idle`. -/
theorem c4_amended (s : Session) (js : JobStatus)
    (hin : s.inflightPolls ≠ 0) (hidle : s.state = .idle) :
    (step s (.pollOk js)).status = some js ∧
    (js.status = .completed → (step s (.pollOk js)).state = .completed) ∧
    (js.status = .error →
      (step s (.pollOk js)).state = .error ∧
      (step s (.pollOk js)).error = some (fallbackOr js.error "Download failed")) ∧
    ((js.status = .pending ∨ js.status = .downloading) →
      (step s (.pollOk js)).state = .idle) := by
  simp only [step, if_neg hin, applyPollOk]
  refine ⟨?_, ?_, ?_, ?_⟩
  · split_ifs <;> rfl
  · intro hjs
    simp [hjs]
  · intro hjs
    simp [hjs]
  · rintro (hjs | hjs) <;> simp [hjs, hidle]

/-- C4 (witness): the concrete reset session with a poll in flight,
receiving the completed-status response, ends in `completed` with the
response cached. -/
theorem c4_amended_witness :
    (step (run evsResetWithPollInflight) (.pollOk jsDone)).status = some jsDone ∧
    (step (run evsResetWithPollInflight) (.pollOk jsDone)).state = .completed :=
  ⟨(c4_amended (run evsResetWithPollInflight) jsDone (by decide) (by decide)).1,
   (c4_amended (run evsResetWithPollInflight) jsDone (by decide) (by decide)).2.1
     (by decide)⟩

/-! ## C5 — creation failure message -/

/-- C5 (counterexample): a create-job rejection whose JSON body carries
the detail field `""` — present but empty — stores the generic message,
not the empty detail string: `error.detail || 'Failed to start download'`
treats the empty string as absent. -/
theorem c5_counterexample :
    (run [.typeUrl goodUrl, .submit, .createErr (some "")]).state = .error ∧
    (run [.typeUrl goodUrl, .submit, .createErr (some "")]).error =
      some "Failed to start download" ∧
    (run [.typeUrl goodUrl, .submit, .createErr (some "")]).error ≠
      some ("" : String) :=
  ⟨by decide, by decide, by decide⟩

/-- C5 (amended): when the create-job call fails while in `loading`, the
machine transitions to `error` and stores `createFailureMessage detail`:
the detail string exactly when the body carries a non-empty detail field
(e.g. "quota exceeded" yields "quota exceeded"), and the generic
"Failed to start download" when the detail field is absent or the empty
string. -/
theorem c5_amended (s : Session) (detail : Option String)
    (_hload : s.state = .loading) (hin : s.inflightCreates ≠ 0) :
    (step s (.createErr detail)).state = .error ∧
    (step s (.createErr detail)).error = some (createFailureMessage detail) ∧
    (∀ d, detail = some d → d ≠ "" →
      (step s (.createErr detail)).error = some d) ∧
    ((detail = none ∨ detail = some "") →
      (step s (.createErr detail)).error = some "Failed to start download") := by
  simp only [step, if_neg hin]
  refine ⟨trivial, trivial, ?_, ?_⟩
  · intro d hd hne
    simp [createFailureMessage, fallbackOr, hd, hne]
  · rintro (hd | hd) <;> simp [createFailureMessage, fallbackOr, hd]

/-- C5 (witness): the spec's failure scenario — submit a valid URL, the
creation call rejects with detail "quota exceeded" — ends in `error` with
message exactly "quota exceeded". -/
theorem c5_amended_witness :
    (step (run [.typeUrl goodUrl, .submit])
        (.createErr (some "quota exceeded"))).state = .error ∧
    (step (run [.typeUrl goodUrl, .submit])
        (.createErr (some "quota exceeded"))).error = some "quota exceeded" :=
  ⟨(c5_amended (run [.typeUrl goodUrl, .submit]) (some "quota exceeded")
      (by decide) (by decide)).1,
   (c5_amended (run [.typeUrl goodUrl, .submit]) (some "quota exceeded")
      (by decide) (by decide)).2.2.1 "quota exceeded" rfl (by decide)⟩

/-! ## C6 — poll failure handling -/

/-- An error-status snapshot carrying a non-empty message. -/
def jsErrBoom : JobStatus :=
  { job_id := "J1", status := .error, progress := []
    song_count := 2, download_url := none, error := some "spotdl crashed" }

/-- Reach `downloading` for job `J1` with one poll in flight. -/
def evsPolling : List Event :=
  [.typeUrl goodUrl, .submit, .createOk "J1", .pollTick]

/-- C6 (counterexample): a poll that returns status `error` with the
error field `""` — present but empty — stores the generic fallback
"Download failed", not the empty service-reported string:
`jobStatus.error || 'Download failed'` treats the empty string as
absent. -/
theorem c6_counterexample :
    (run (evsPolling ++ [.pollOk jsErrEmpty])).state = .error ∧
    (run (evsPolling ++ [.pollOk jsErrEmpty])).error = some "Download failed" ∧
    (run (evsPolling ++ [.pollOk jsErrEmpty])).error ≠ some ("" : String) :=
  ⟨by decide, by decide, by decide⟩

/-- C6 (amended): on a poll tick in `downloading` (a poll in flight), a
response with status `error` moves the machine to `error`, storing the
service-reported message exactly when it is non-null and non-empty, and
the generic "Download failed" when it is null or empty; and a failed poll
call (non-2xx or network failure) moves the machine to `error` with the
generic "Failed to check status". -/
theorem c6_amended (s : Session) (js : JobStatus)
    (_hdown : s.state = .downloading) (hin : s.inflightPolls ≠ 0) :
    (js.status = .error →
      (step s (.pollOk js)).state = .error ∧
      (step s (.pollOk js)).error =
        some (fallbackOr js.error "Download failed") ∧
      (∀ m, js.error = some m → m ≠ "" →
        (step s (.pollOk js)).error = some m) ∧
      ((js.error = none ∨ js.error = some "") →
        (step s (.pollOk js)).error = some "Download failed")) ∧
    ((step s .pollFail).state = .error ∧
     (step s .pollFail).error = some "Failed to check status") := by
  constructor
  · intro hjs
    simp only [step, if_neg hin, applyPollOk, hjs]
    refine ⟨by simp, by simp, ?_, ?_⟩
    · intro m hm hne
      simp [fallbackOr, hm, hne]
    · rintro (hm | hm) <;> simp [fallbackOr, hm]
  · constructor <;> simp [step, if_neg hin]

/-- C6 (witness): on concrete polling traces, an error-status response
with message "spotdl crashed" stores exactly that message, and a failed
poll call stores "Failed to check status"; both end in `error`. -/
theorem c6_amended_witness :
    (step (run evsPolling) (.pollOk jsErrBoom)).state = .error ∧
    (step (run evsPolling) (.pollOk jsErrBoom)).error = some "spotdl crashed" ∧
    (step (run evsPolling) .pollFail).state = .error ∧
    (step (run evsPolling) .pollFail).error = some "Failed to check status" :=
  ⟨((c6_amended (run evsPolling) jsErrBoom (by decide) (by decide)).1
      (by decide)).1,
   ((c6_amended (run evsPolling) jsErrBoom (by decide) (by decide)).1
      (by decide)).2.2.1 "spotdl crashed" rfl (by decide),
   (c6_amended (run evsPolling) jsErrBoom (by decide) (by decide)).2.1,
   (c6_amended (run evsPolling) jsErrBoom (by decide) (by decide)).2.2⟩

/-! ## C7 — polling cadence and cancellation -/

/-- Whether an event is the arrival of a successful create-job response
(the only event that can move the machine into `downloading`). -/
def isCreateOk : Event → Bool
  | .createOk _ => true
  | _ => false

/-- From a non-`downloading` state, any event other than a create-job
success keeps the state out of `downloading` and issues no poll
request. -/
theorem step_notDownloading (s : Session) (e : Event)
    (hs : s.state ≠ .downloading) (he : isCreateOk e = false) :
    (step s e).state ≠ .downloading ∧
    (step s e).pollRequests = s.pollRequests := by
  cases e <;>
    simp only [step, applyPollOk, isCreateOk] at he ⊢ <;>
    (try split_ifs) <;>
    simp_all

/-- Folding any create-success-free event sequence from a
non-`downloading` state never re-enters `downloading` and never issues a
poll request. -/
theorem runFrom_no_createOk (s : Session) (evs : List Event)
    (hs : s.state ≠ .downloading)
    (he : evs.all (fun e => !isCreateOk e) = true) :
    (runFrom s evs).state ≠ .downloading ∧
    (runFrom s evs).pollRequests = s.pollRequests := by
  induction evs generalizing s with
  | nil => exact ⟨hs, rfl⟩
  | cons e rest ih =>
    rw [List.all_cons, Bool.and_eq_true] at he
    have he1 : isCreateOk e = false := by
      cases hc : isCreateOk e
      · rfl
      · rw [hc] at he; simp at he
    obtain ⟨h1, h2⟩ := step_notDownloading s e hs he1
    obtain ⟨h3, h4⟩ := ih (step s e) h1 he.2
    exact ⟨h3, h4.trans h2⟩

/-- C7: along every trace, (1) a tick of the polling interval issues
exactly one get-status request when the machine is in `downloading`
(the interval exists and `pollStatus` runs with a non-null job id);
(2) outside `downloading` a tick changes nothing — the interval has been
cancelled; (3) once the machine has left `downloading` (e.g. after a poll
observed status completed), every further sequence of events containing
no new successful job creation issues zero poll requests. -/
theorem c7_polling (evs : List Event) :
    ((run evs).state = .downloading →
      (step (run evs) .pollTick).pollRequests = (run evs).pollRequests + 1) ∧
    ((run evs).state ≠ .downloading → step (run evs) .pollTick = run evs) ∧
    (∀ tail, (run evs).state ≠ .downloading →
      tail.all (fun e => !isCreateOk e) = true →
      (runFrom (run evs) tail).pollRequests = (run evs).pollRequests) := by
  refine ⟨?_, ?_, ?_⟩
  · intro hdown
    have hjob := (sessionInv_run evs).2 hdown
    simp [step, hdown, hjob]
  · intro hnd
    simp [step, hnd]
  · intro tail hnd hall
    exact (runFrom_no_createOk (run evs) tail hnd hall).2

/-- Submit a valid URL and let the creation fail: the machine has left
for `error` and the polling timer never was (or is no longer) active. -/
def evsAfterCreateFailure : List Event :=
  [.typeUrl goodUrl, .submit, .createErr none]

/-- C7 (witness): in `downloading` after a successful submission, one
tick raises the issued-request count from 0 to 1; on the trace whose job
ended in `error`, a tick is a complete no-op and repeated ticks issue no
requests at all. -/
theorem c7_polling_witness :
    (step (run evsToDownloading) .pollTick).pollRequests =
      (run evsToDownloading).pollRequests + 1 ∧
    step (run evsAfterCreateFailure) .pollTick = run evsAfterCreateFailure ∧
    (runFrom (run evsAfterCreateFailure) [.pollTick, .pollTick]).pollRequests =
      (run evsAfterCreateFailure).pollRequests :=
  ⟨(c7_polling evsToDownloading).1 (by decide),
   (c7_polling evsAfterCreateFailure).2.1 (by decide),
   (c7_polling evsAfterCreateFailure).2.2 [.pollTick, .pollTick]
     (by decide) (by decide)⟩

end Musify
